import Mathlib

/-!
# Verification of the tkinter-to-Kivy compatibility shim

A shallow embedding, in Lean 4, of the observable state and the pure logic of
`tkintertokivy.py` (the single source file of the repository).  Python strings
are modelled as Lean `String`/`List Char` (the inputs of interest are ASCII);
Python's `int(s, 16)` / `int(s, 10)` conversions are modelled faithfully,
including their acceptance of surrounding whitespace, an optional sign, an
optional `0x` prefix (base 16) and underscores between digits; Python floats
are modelled as exact rationals together with the special values `inf`,
`-inf` and `nan` (no rounding is performed by any code path we verify, so this
is faithful for every claim below); `float` literals such as `0.9` in the
source are modelled by the rational they denote.  Side effects (`print`) are
dropped; mutation is modelled by explicit state passing.
-/

namespace TkinterToKivy

/-! ## A model of the fragments of the Python runtime the source relies on -/

/-- ASCII whitespace, the characters matched by Python's `str.strip`, `\s`
(for the ASCII inputs we consider) and by `int()`'s surrounding-space rule:
space, tab, newline, carriage return, vertical tab, form feed. -/
def isPySpace (c : Char) : Bool :=
  c.toNat = 32 || c.toNat = 9 || c.toNat = 10 || c.toNat = 13 ||
  c.toNat = 11 || c.toNat = 12

/-- `str.strip()`: drop whitespace from both ends. -/
def pyStrip (l : List Char) : List Char :=
  ((l.dropWhile isPySpace).reverse.dropWhile isPySpace).reverse

/-- Value of a hexadecimal digit (`0-9`, `a-f`, `A-F`). -/
def hexDigitVal (c : Char) : Option Nat :=
  if 48 ≤ c.toNat ∧ c.toNat ≤ 57 then some (c.toNat - 48)
  else if 97 ≤ c.toNat ∧ c.toNat ≤ 102 then some (c.toNat - 87)
  else if 65 ≤ c.toNat ∧ c.toNat ≤ 70 then some (c.toNat - 55)
  else none

/-- Value of a decimal digit. -/
def decDigitVal (c : Char) : Option Nat :=
  if 48 ≤ c.toNat ∧ c.toNat ≤ 57 then some (c.toNat - 48)
  else none

/-- Digit sequence with single underscores allowed between digits, as in
CPython's integer grammar: already-seen accumulator `acc`, remaining
characters.  An underscore must be followed by a digit and must not be
trailing. -/
def digitsCore (dv : Char → Option Nat) (base : Nat) : List Char → Nat → Option Nat
  | [], acc => some acc
  | '_' :: c :: rest, acc =>
      match dv c with
      | some v => digitsCore dv base rest (acc * base + v)
      | none => none
  | ['_'], _ => none
  | c :: rest, acc =>
      match dv c with
      | some v => digitsCore dv base rest (acc * base + v)
      | none => none

/-- Nonempty digit sequence (underscores between digits), no leading
underscore. -/
def digitsParse (dv : Char → Option Nat) (base : Nat) : List Char → Option Nat
  | [] => none
  | c :: rest =>
      match dv c with
      | some v => digitsCore dv base rest v
      | none => none

/-- Base-16 digit part, after sign: optional `0x`/`0X` prefix, after which a
single underscore may directly follow (CPython allows `0x_12`). -/
def hexUnsigned (l : List Char) : Option Nat :=
  match l with
  | '0' :: 'x' :: rest =>
      match rest with
      | '_' :: r2 => digitsParse hexDigitVal 16 r2
      | _ => digitsParse hexDigitVal 16 rest
  | '0' :: 'X' :: rest =>
      match rest with
      | '_' :: r2 => digitsParse hexDigitVal 16 r2
      | _ => digitsParse hexDigitVal 16 rest
  | _ => digitsParse hexDigitVal 16 l

/-- Python `int(s, 16)` on a string: strip whitespace, optional sign,
optional `0x` prefix, hex digits with underscores.  `none` models a raised
`ValueError`. -/
def pyIntBase16 (l : List Char) : Option Int :=
  match pyStrip l with
  | '+' :: rest => (hexUnsigned rest).map Int.ofNat
  | '-' :: rest => (hexUnsigned rest).map (fun n => -(n : Int))
  | r => (hexUnsigned r).map Int.ofNat

/-- Python `int(s)` (base 10) on a string: strip whitespace, optional sign,
decimal digits with underscores.  `none` models a raised `ValueError`. -/
def pyIntBase10 (l : List Char) : Option Int :=
  match pyStrip l with
  | '+' :: rest => (digitsParse decDigitVal 10 rest).map Int.ofNat
  | '-' :: rest => (digitsParse decDigitVal 10 rest).map (fun n => -(n : Int))
  | r => (digitsParse decDigitVal 10 r).map Int.ofNat

/-! ## C1: `FakeStringVar` — value storage and trace-callback firing

Source: `FakeStringVar` (src/tkintertokivy.py:2463-2503).  `set` stores
`str(value)` and iterates over `self._callbacks` exactly when the stored
value changed; `trace` appends one callback per registration.  Callbacks are
modelled by opaque labels (`Nat`); an invocation is an occurrence in the
returned fired-list (a raising callback is still an invocation — the source
catches and prints its exception).  The argument of `set` is modelled as the
already-stringified value `str(v)` (Python's `str` is total). -/

structure StringVarState where
  value : String
  callbacks : List Nat
  deriving Repr, DecidableEq

namespace FakeStringVar

/-- `FakeStringVar.__init__(value="")`: store `str(value)`, no callbacks. -/
def init (value : String) : StringVarState :=
  { value := value, callbacks := [] }

/-- `FakeStringVar.get`. -/
def get (st : StringVarState) : String := st.value

/-- `FakeStringVar.set(value)`: store the new value; return the new state
together with the list of callback invocations performed (in order). -/
def set (st : StringVarState) (v : String) : StringVarState × List Nat :=
  let old := st.value
  let st2 : StringVarState := { st with value := v }
  if old ≠ v then (st2, st2.callbacks) else (st2, [])

/-- `FakeStringVar.trace(mode, callback)`: append the callback. -/
def trace (st : StringVarState) (cb : Nat) : StringVarState :=
  { st with callbacks := st.callbacks ++ [cb] }

end FakeStringVar

/-! ## C2: `auto_translate_mode` / `disable_auto_translate`

Source: src/tkintertokivy.py:37 (`_original_modules = {}`), 39-49 and
3626-3654 (`auto_translate_mode`), 3656-3671 (`disable_auto_translate`).
`sys.modules` and the module-level dict `_original_modules` are modelled as
association lists from names to modules; a module is one of the four fake
modules built by `auto_translate_mode` or an arbitrary pre-existing ("real")
module.  The attributes set on the fake modules (lines 3607-3622 and
3626-3645) are recorded as a name-to-class-name map; classes are identified
by their source names. -/

inductive PyModule where
  | fakeTkinter
  | fakeFont
  | fakeTtk
  | fakeMessagebox
  | real (n : Nat)
  deriving Repr, DecidableEq

/-- Dict lookup. -/
def mlookup {α : Type} (m : List (String × α)) (k : String) : Option α :=
  match m with
  | [] => none
  | (k', v) :: rest => if k' = k then some v else mlookup rest k

/-- Dict deletion (`del m[k]`). -/
def merase {α : Type} (m : List (String × α)) (k : String) : List (String × α) :=
  match m with
  | [] => []
  | (k', v) :: rest => if k' = k then merase rest k else (k', v) :: merase rest k

/-- Dict assignment (`m[k] = v`). -/
def mset {α : Type} (m : List (String × α)) (k : String) (v : α) : List (String × α) :=
  (k, v) :: merase m k

/-- The interpreter state the two functions act on: `sys.modules` and the
module-global `_original_modules`. -/
structure ModState where
  sysModules : List (String × PyModule)
  originalModules : List (String × PyModule)
  deriving Repr, DecidableEq

/-- Attributes assigned on `fake_tkinter` (src/tkintertokivy.py:3626-3645),
as attribute name ↦ source-class (or submodule) name. -/
def fakeTkinterAttrs : List (String × String) :=
  [("Tk", "FakeTk"), ("Button", "FakeButton"), ("Label", "FakeLabel"),
   ("Entry", "FakeEntry"), ("Text", "FakeText"), ("Frame", "FakeFrame"),
   ("Canvas", "FakeCanvas"), ("Scrollbar", "FakeScrollbar"),
   ("Menu", "FakeMenu"), ("Notebook", "FakeNotebook"),
   ("Checkbutton", "FakeCheckbutton"), ("Radiobutton", "FakeRadiobutton"),
   ("StringVar", "FakeStringVar"), ("IntVar", "FakeIntVar"),
   ("DoubleVar", "FakeDoubleVar"), ("BooleanVar", "FakeBooleanVar"),
   ("font", "fake_font_module"), ("ttk", "fake_ttk_module"),
   ("messagebox", "fake_messagebox_module")]

/-- Attributes assigned on `fake_ttk_module` (src/tkintertokivy.py:3607-3622). -/
def fakeTtkAttrs : List (String × String) :=
  [("Button", "FakeButton"), ("Label", "FakeLabel"), ("Entry", "FakeEntry"),
   ("Frame", "FakeFrame"), ("Checkbutton", "FakeCheckbutton"),
   ("Radiobutton", "FakeRadiobutton"), ("Text", "FakeText"),
   ("Scale", "FakeLabel"), ("Progressbar", "FakeLabel"),
   ("Combobox", "FakeLabel"), ("Treeview", "FakeLabel"),
   ("Notebook", "FakeNotebook"), ("Separator", "FakeLabel"),
   ("Scrollbar", "FakeScrollbar")]

/-- `auto_translate_mode()`: save any pre-existing `tkinter` module into
`_original_modules`, then install the four fake modules in `sys.modules`
(src/tkintertokivy.py:44-49 and 3647-3654). -/
def autoTranslateMode (st : ModState) : ModState :=
  let orig :=
    match mlookup st.sysModules "tkinter" with
    | some m => mset st.originalModules "tkinter" m
    | none => st.originalModules
  let s1 := mset st.sysModules "tkinter" PyModule.fakeTkinter
  let s2 := mset s1 "tkinter.font" PyModule.fakeFont
  let s3 := mset s2 "tkinter.ttk" PyModule.fakeTtk
  let s4 := mset s3 "tkinter.messagebox" PyModule.fakeMessagebox
  { sysModules := s4, originalModules := orig }

/-- `disable_auto_translate()` (src/tkintertokivy.py:3656-3671): restore the
saved `tkinter` module, or delete the key if none was saved; then delete the
three submodule keys if present. -/
def disableAutoTranslate (st : ModState) : ModState :=
  let s0 :=
    match mlookup st.originalModules "tkinter" with
    | some m => mset st.sysModules "tkinter" m
    | none =>
        match mlookup st.sysModules "tkinter" with
        | some _ => merase st.sysModules "tkinter"
        | none => st.sysModules
  let s1 := if (mlookup s0 "tkinter.font").isSome then merase s0 "tkinter.font" else s0
  let s2 := if (mlookup s1 "tkinter.ttk").isSome then merase s1 "tkinter.ttk" else s1
  let s3 := if (mlookup s2 "tkinter.messagebox").isSome then merase s2 "tkinter.messagebox" else s2
  { st with sysModules := s3 }

/-! ## C3: geometry managers — `grid` delegates to `pack`

Source: the `pack`/`grid` pairs of the ten widget classes
(src/tkintertokivy.py:617-628, 896-907, 1010-1042, 1208-1219, 1679-1690,
2132-2140, 2389-2397, 2754-2762, 2933-2941, 3266-3274).  A Kivy-side object
is a label together with the `hasattr(·, 'add_widget')` flag (false for the
`ImportError` fallback, where the attribute holds a plain string); the
observable parent state is its optional `_widgets` list, whether it exposes
`_add_child_to_layout` (i.e. is a `FakeFrame`), and in that case its Kivy
layout's children.  `pack` ignores its keyword arguments entirely; they are
still passed (as an association list) to state the claim for every argument
dictionary. -/

/-- A Kivy-level object: `id` identifies it, `isWidget` models
`hasattr(obj, 'add_widget')` (true for real Kivy widgets, false for the
`ImportError`-fallback string). -/
structure KivyObj where
  id : Nat
  isWidget : Bool
  deriving Repr, DecidableEq

/-- Keyword arguments of a geometry-manager call (never inspected by the
source). -/
abbrev GeomKwargs := List (String × String)

/-- The parent-side state a `pack` call can observe and change. -/
structure ParentState where
  /-- `hasattr(parent, '_widgets')` -/
  hasWidgets : Bool
  /-- `parent._widgets` -/
  widgets : List KivyObj
  /-- `hasattr(parent, '_add_child_to_layout')` (parent is a `FakeFrame`) -/
  hasAddChildMethod : Bool
  /-- `hasattr(parent.kivy_frame, 'add_widget')` for such a frame parent -/
  frameIsWidget : Bool
  /-- the frame parent's `kivy_frame.children` -/
  layoutChildren : List KivyObj
  deriving Repr, DecidableEq

/-- `FakeFrame._add_child_to_layout(child)` (src/tkintertokivy.py:1029-1039),
seen from the parent side: add the child to the Kivy layout if the layout
supports `add_widget`, the child is a real widget and it is not already
among the children. -/
def addChildToLayout (p : ParentState) (c : KivyObj) : ParentState :=
  if p.frameIsWidget then
    if c.isWidget then
      if c ∈ p.layoutChildren then p
      else { p with layoutChildren := p.layoutChildren ++ [c] }
    else p
  else p

/-- The shared body of `pack` for `FakeButton`, `FakeLabel`, `FakeCanvas`
and `FakeScrollbar`: append the widget to `parent._widgets` and, when the
parent is a frame, immediately add it to the frame's layout.  `hasattr(self,
'kivy_…')` always holds after `__init__` (both branches of
`_create_kivy_…` assign the attribute), so it is not a parameter. -/
def packWithLayoutNotify (kivyObj : KivyObj) (_kwargs : GeomKwargs)
    (p : ParentState) : ParentState :=
  if p.hasWidgets then
    let p1 := { p with widgets := p.widgets ++ [kivyObj] }
    if p1.hasAddChildMethod then addChildToLayout p1 kivyObj else p1
  else p

/-- The shared body of `pack` for `FakeNotebook`, `FakeEntry`,
`FakeCheckbutton`, `FakeRadiobutton` and `FakeText`: append to
`parent._widgets` only. -/
def packAppendOnly (kivyObj : KivyObj) (_kwargs : GeomKwargs)
    (p : ParentState) : ParentState :=
  if p.hasWidgets then { p with widgets := p.widgets ++ [kivyObj] } else p

namespace FakeButton

/-- `FakeButton.pack` (src/tkintertokivy.py:617-625). -/
def pack (kivyObj : KivyObj) (kwargs : GeomKwargs) (p : ParentState) : ParentState :=
  packWithLayoutNotify kivyObj kwargs p

/-- `FakeButton.grid` (src/tkintertokivy.py:627-628): `self.pack(**kwargs)`. -/
def grid (kivyObj : KivyObj) (kwargs : GeomKwargs) (p : ParentState) : ParentState :=
  pack kivyObj kwargs p

end FakeButton

namespace FakeLabel

/-- `FakeLabel.pack` (src/tkintertokivy.py:896-904). -/
def pack (kivyObj : KivyObj) (kwargs : GeomKwargs) (p : ParentState) : ParentState :=
  packWithLayoutNotify kivyObj kwargs p

/-- `FakeLabel.grid` (src/tkintertokivy.py:906-907). -/
def grid (kivyObj : KivyObj) (kwargs : GeomKwargs) (p : ParentState) : ParentState :=
  pack kivyObj kwargs p

end FakeLabel

namespace FakeCanvas

/-- `FakeCanvas.pack` (src/tkintertokivy.py:1208-1216). -/
def pack (kivyObj : KivyObj) (kwargs : GeomKwargs) (p : ParentState) : ParentState :=
  packWithLayoutNotify kivyObj kwargs p

/-- `FakeCanvas.grid` (src/tkintertokivy.py:1218-1219). -/
def grid (kivyObj : KivyObj) (kwargs : GeomKwargs) (p : ParentState) : ParentState :=
  pack kivyObj kwargs p

end FakeCanvas

namespace FakeScrollbar

/-- `FakeScrollbar.pack` (src/tkintertokivy.py:1679-1687). -/
def pack (kivyObj : KivyObj) (kwargs : GeomKwargs) (p : ParentState) : ParentState :=
  packWithLayoutNotify kivyObj kwargs p

/-- `FakeScrollbar.grid` (src/tkintertokivy.py:1689-1690). -/
def grid (kivyObj : KivyObj) (kwargs : GeomKwargs) (p : ParentState) : ParentState :=
  pack kivyObj kwargs p

end FakeScrollbar

namespace FakeNotebook

/-- `FakeNotebook.pack` (src/tkintertokivy.py:2132-2137). -/
def pack (kivyObj : KivyObj) (kwargs : GeomKwargs) (p : ParentState) : ParentState :=
  packAppendOnly kivyObj kwargs p

/-- `FakeNotebook.grid` (src/tkintertokivy.py:2139-2140). -/
def grid (kivyObj : KivyObj) (kwargs : GeomKwargs) (p : ParentState) : ParentState :=
  pack kivyObj kwargs p

end FakeNotebook

namespace FakeEntry

/-- `FakeEntry.pack` (src/tkintertokivy.py:2389-2394). -/
def pack (kivyObj : KivyObj) (kwargs : GeomKwargs) (p : ParentState) : ParentState :=
  packAppendOnly kivyObj kwargs p

/-- `FakeEntry.grid` (src/tkintertokivy.py:2396-2397). -/
def grid (kivyObj : KivyObj) (kwargs : GeomKwargs) (p : ParentState) : ParentState :=
  pack kivyObj kwargs p

end FakeEntry

namespace FakeCheckbutton

/-- `FakeCheckbutton.pack` (src/tkintertokivy.py:2754-2759). -/
def pack (kivyObj : KivyObj) (kwargs : GeomKwargs) (p : ParentState) : ParentState :=
  packAppendOnly kivyObj kwargs p

/-- `FakeCheckbutton.grid` (src/tkintertokivy.py:2761-2762). -/
def grid (kivyObj : KivyObj) (kwargs : GeomKwargs) (p : ParentState) : ParentState :=
  pack kivyObj kwargs p

end FakeCheckbutton

namespace FakeRadiobutton

/-- `FakeRadiobutton.pack` (src/tkintertokivy.py:2933-2938). -/
def pack (kivyObj : KivyObj) (kwargs : GeomKwargs) (p : ParentState) : ParentState :=
  packAppendOnly kivyObj kwargs p

/-- `FakeRadiobutton.grid` (src/tkintertokivy.py:2940-2941). -/
def grid (kivyObj : KivyObj) (kwargs : GeomKwargs) (p : ParentState) : ParentState :=
  pack kivyObj kwargs p

end FakeRadiobutton

namespace FakeText

/-- `FakeText.pack` (src/tkintertokivy.py:3266-3271). -/
def pack (kivyObj : KivyObj) (kwargs : GeomKwargs) (p : ParentState) : ParentState :=
  packAppendOnly kivyObj kwargs p

/-- `FakeText.grid` (src/tkintertokivy.py:3273-3274). -/
def grid (kivyObj : KivyObj) (kwargs : GeomKwargs) (p : ParentState) : ParentState :=
  pack kivyObj kwargs p

end FakeText

/-- `FakeFrame`'s own state as a geometry-managed widget: its Kivy layout
(`kivy_frame`), the `_widgets` list of children packed into it, and the
layout's `children`. -/
structure FrameSelf where
  /-- the frame's `kivy_frame` object (`hasattr(self, 'kivy_frame')` always
  holds after `__init__`); its `isWidget` flag models
  `hasattr(kivy_frame, 'add_widget')` -/
  kivyFrame : KivyObj
  /-- `self._widgets` -/
  childWidgets : List KivyObj
  /-- `self.kivy_frame.children` -/
  layoutChildren : List KivyObj
  deriving Repr, DecidableEq

namespace FakeFrame

/-- One step of the child-flushing loop in `FakeFrame.pack`
(src/tkintertokivy.py:1013-1021). -/
def flushChild (children : List KivyObj) (c : KivyObj) : List KivyObj :=
  if c.isWidget then
    if c ∈ children then children else children ++ [c]
  else children

/-- `FakeFrame.pack` (src/tkintertokivy.py:1010-1027): flush the already
packed children into the frame's own Kivy layout, then append the frame's
layout to the parent's `_widgets`. -/
def pack (self : FrameSelf) (_kwargs : GeomKwargs) (p : ParentState) :
    FrameSelf × ParentState :=
  let self1 :=
    if self.kivyFrame.isWidget then
      { self with layoutChildren := self.childWidgets.foldl flushChild self.layoutChildren }
    else self
  let p1 :=
    if p.hasWidgets then { p with widgets := p.widgets ++ [self.kivyFrame] } else p
  (self1, p1)

/-- `FakeFrame.grid` (src/tkintertokivy.py:1041-1042). -/
def grid (self : FrameSelf) (kwargs : GeomKwargs) (p : ParentState) :
    FrameSelf × ParentState :=
  pack self kwargs p

end FakeFrame

/-! ## C4: per-widget background-color parsing

Source: the `bg`/`background` branches of `FakeButton._create_kivy_button`
(src/tkintertokivy.py:508-540), `FakeFrame._create_kivy_frame` (954-977) and
`FakeCanvas._create_kivy_canvas` (1155-1180).  Each function below is the
value stored for the widget's background when a non-`None` color was
supplied.  Python `float` literals (`0.9`, `0.5`) are modelled by the exact
rationals they denote, and `int(·, 16)/255.0` by exact rational division;
`color.startswith('#')` is modelled as a head test and `color[1:]` as
`drop 1`.  All functions are total: the source wraps the `int` calls in
`try/except`, so no input raises. -/

/-- An RGBA tuple. -/
abbrev KColor := Rat × Rat × Rat × Rat

/-- The shared hex branch: `color[1:]` must have length 6 and each
two-character slice is converted with Python's `int(·, 16)`; any conversion
failure falls back to the widget's default (the `except` arm). -/
def hexColorBranch (dflt : KColor) (hexColor : List Char) : KColor :=
  if hexColor.length = 6 then
    match pyIntBase16 (hexColor.take 2), pyIntBase16 ((hexColor.drop 2).take 2),
        pyIntBase16 (hexColor.drop 4) with
    | some r, some g, some b => ((r : Rat) / 255, (g : Rat) / 255, (b : Rat) / 255, 1)
    | _, _, _ => dflt
  else dflt

/-- `FakeButton`'s background parsing for a string color
(src/tkintertokivy.py:510-540): named colors, then hex, default light gray. -/
def buttonBgColor (color : String) : KColor :=
  if color = "" then (9/10, 9/10, 9/10, 1)
  else if color = "white" then (1, 1, 1, 1)
  else if color = "black" then (0, 0, 0, 1)
  else if color = "blue" then (0, 0, 1, 1)
  else if color = "red" then (1, 0, 0, 1)
  else if color = "green" then (0, 1, 0, 1)
  else if color = "gray" ∨ color = "grey" then (1/2, 1/2, 1/2, 1)
  else if color.toList.head? = some '#' then
    hexColorBranch (9/10, 9/10, 9/10, 1) (color.toList.drop 1)
  else (9/10, 9/10, 9/10, 1)

/-- `FakeFrame`'s background parsing (src/tkintertokivy.py:956-977): only
`white`/`black` are named, default light gray. -/
def frameBgColor (color : String) : KColor :=
  if color = "" then (9/10, 9/10, 9/10, 1)
  else if color = "white" then (1, 1, 1, 1)
  else if color = "black" then (0, 0, 0, 1)
  else if color.toList.head? = some '#' then
    hexColorBranch (9/10, 9/10, 9/10, 1) (color.toList.drop 1)
  else (9/10, 9/10, 9/10, 1)

/-- `FakeCanvas`'s background parsing (src/tkintertokivy.py:1157-1180):
only `white`/`black` are named, default white. -/
def canvasBgColor (color : String) : KColor :=
  if color = "" then (1, 1, 1, 1)
  else if color = "white" then (1, 1, 1, 1)
  else if color = "black" then (0, 0, 0, 1)
  else if color.toList.head? = some '#' then
    hexColorBranch (1, 1, 1, 1) (color.toList.drop 1)
  else (1, 1, 1, 1)

/-! ## C5: `FakeTk.after` / `FakeTk.after_cancel`

Source: src/tkintertokivy.py:406-440.  `after` starts a daemon thread that
sleeps and then calls `func(*args)` — nothing ever stops it — and only then
records a job id built from `randint(1000, 9999)` in `self._after_jobs`;
`after_cancel` merely deletes the id from that dict.  The scheduling side
effect is modelled by an append-only list of the delayed calls the started
threads will eventually perform; the random draw is an explicit parameter
constrained to `randint`'s inclusive range at the call sites. -/

structure TkSchedState where
  /-- `self._after_jobs` (job id ↦ started thread, identified by its start
  index) -/
  afterJobs : List (String × Nat)
  /-- the delayed calls (`func` labels) of the worker threads started so far;
  once started a thread cannot be stopped, so nothing ever removes an entry -/
  startedCalls : List Nat
  deriving Repr, DecidableEq

namespace FakeTk

/-- `FakeTk.after(delay, func, *args)` (src/tkintertokivy.py:406-431):
start the worker thread, then record `"after_job_" + str(rand)` in
`_after_jobs`; returns the job id.  `rand` is the value drawn by
`randint(1000, 9999)`. -/
def after (st : TkSchedState) (func : Nat) (rand : Nat) : String × TkSchedState :=
  let threadId := st.startedCalls.length
  let started := st.startedCalls ++ [func]
  let jobId := "after_job_" ++ toString rand
  (jobId, { afterJobs := mset st.afterJobs jobId threadId, startedCalls := started })

/-- `FakeTk.after_cancel(job_id)` (src/tkintertokivy.py:433-440): delete the
id from `_after_jobs` when present; never touches the started threads. -/
def after_cancel (st : TkSchedState) (jobId : String) : TkSchedState :=
  if (mlookup st.afterJobs jobId).isSome then
    { st with afterJobs := merase st.afterJobs jobId }
  else st

end FakeTk

/-! ## C6: `FakeTk` window-state operations

Source: src/tkintertokivy.py:187-200 (`withdraw`, `deiconify`, `iconify`)
and 387-404 (`wm_state`).  The flags `_withdrawn` and `_iconified` are read
with `getattr(·, ·, False)`, so the initial state has both false. -/

structure WinState where
  /-- `self._withdrawn` -/
  withdrawn : Bool
  /-- `self._iconified` -/
  iconified : Bool
  deriving Repr, DecidableEq

namespace FakeTk

/-- `FakeTk.withdraw` (src/tkintertokivy.py:187-190). -/
def withdraw (st : WinState) : WinState := { st with withdrawn := true }

/-- `FakeTk.deiconify` (src/tkintertokivy.py:192-195): clears only the
withdrawn flag. -/
def deiconify (st : WinState) : WinState := { st with withdrawn := false }

/-- `FakeTk.iconify` (src/tkintertokivy.py:197-200): sets only the iconified
flag. -/
def iconify (st : WinState) : WinState := { st with iconified := true }

/-- `FakeTk.wm_state()` with no argument (src/tkintertokivy.py:389-395). -/
def wm_stateGet (st : WinState) : String :=
  if st.withdrawn then "withdrawn"
  else if st.iconified then "iconic"
  else "normal"

/-- `FakeTk.wm_state(state)` with an argument
(src/tkintertokivy.py:396-404): dispatch to the flag operation and return
the argument. -/
def wm_stateSet (st : WinState) (s : String) : String × WinState :=
  let st' :=
    if s = "withdrawn" then withdraw st
    else if s = "iconic" then iconify st
    else if s = "normal" then deiconify st
    else st
  (s, st')

end FakeTk

/-- The window-state operations a prior history may consist of. -/
inductive WinOp where
  | withdrawOp
  | deiconifyOp
  | iconifyOp
  | wmSet (s : String)
  deriving Repr, DecidableEq

/-- Run a sequence of window-state operations. -/
def runWinOps (ops : List WinOp) (st : WinState) : WinState :=
  match ops with
  | [] => st
  | op :: rest =>
      let st' :=
        match op with
        | .withdrawOp => FakeTk.withdraw st
        | .deiconifyOp => FakeTk.deiconify st
        | .iconifyOp => FakeTk.iconify st
        | .wmSet s => (FakeTk.wm_stateSet st s).2
      runWinOps rest st'

/-- The state of a fresh `FakeTk` window: neither flag attribute exists, so
`getattr(·, ·, False)` yields false for both. -/
def initWinState : WinState := ⟨false, false⟩

/-! ## C7: `translate_imports`

Source: src/tkintertokivy.py:3673-3711.  The three regexes
`import\s+tkinter\s+as\s+tk`, `from\s+tkinter\s+import` and
`import\s+tkinter` consist of literal words separated by `\s+`; since every
`\s+` is followed by a non-space literal, greedy whitespace matching is
exact and `re.search` is modelled as "some suffix matches". -/

/-- Match a literal character sequence at the head, returning the rest. -/
def matchLit : List Char → List Char → Option (List Char)
  | [], s => some s
  | _ :: _, [] => none
  | p :: ps, c :: cs => if p = c then matchLit ps cs else none

/-- `\s+` (one or more whitespace characters), greedy. -/
def spaces1 : List Char → Option (List Char)
  | [] => none
  | c :: cs => if isPySpace c then some (cs.dropWhile isPySpace) else none

/-- Match the literal words of `tokens`, separated by `\s+`, at the head. -/
def matchWords : List (List Char) → List Char → Bool
  | [], _ => true
  | [t], s => (matchLit t s).isSome
  | t :: ts, s =>
      match matchLit t s with
      | some r =>
          match spaces1 r with
          | some r2 => matchWords ts r2
          | none => false
      | none => false

/-- `re.search` for such a pattern: some suffix of the subject matches. -/
def searchWords (ts : List (List Char)) : List Char → Bool
  | [] => matchWords ts []
  | c :: rest => matchWords ts (c :: rest) || searchWords ts rest

/-- The import block emitted in each branch
(src/tkintertokivy.py:3690-3709): the four Kivy import lines joined by
newlines by the final `'\n'.join`. -/
def kivyImportBlock : String :=
  String.intercalate "\n"
    ["from kivy.app import App", "from kivy.uix.boxlayout import BoxLayout",
     "from kivy.uix.button import Button", "from kivy.uix.label import Label"]

/-- `translate_imports(tkinter_code)` (src/tkintertokivy.py:3673-3711). -/
def translate_imports (code : String) : String :=
  let cs := code.toList
  if searchWords ["import".toList, "tkinter".toList, "as".toList, "tk".toList] cs then
    kivyImportBlock
  else if searchWords ["from".toList, "tkinter".toList, "import".toList] cs then
    kivyImportBlock
  else if searchWords ["import".toList, "tkinter".toList] cs then
    kivyImportBlock
  else ""

/-! ## C8: `translate_button`

Source: src/tkintertokivy.py:3744-3847.  The guard regex is
`(?:tk\.)?Button\s*\((.*?)\)` with `re.DOTALL`: at each start position the
engine first tries the `tk.` prefix, then matches `Button`, greedy `\s*`
(deterministic, since the following `(` is not whitespace), `(`, and the
lazy group runs to the first `)`; `re.search` takes the leftmost match.  On
failure the function returns the fixed error string; on success the
parameter string is processed by `split`/`strip`, the parameter regex
`(\w+)\s*=\s*([^,]+?)(?=,\s*\w+\s*=|$)` (with `re.findall` scanning and the
`\s*`-backtracking the engine performs before the lazy value group), and the
fixed parameter-mapping table.  `\w` is modelled as ASCII alphanumeric or
underscore and `$` as end-of-subject or a sole trailing newline, as in
CPython for the ASCII subjects concerned. -/

/-- `\w` (ASCII). -/
def isWordChar (c : Char) : Bool := c.isAlphanum || c = '_'

/-- The lazy group `(.*?)\)`: everything up to the first `)`, failing when
no `)` follows. -/
def takeUntilParen : List Char → Option (List Char)
  | [] => none
  | c :: rest => if c = ')' then some [] else (takeUntilParen rest).map (c :: ·)

/-- `Button\s*\((.*?)\)` anchored at the head: returns the captured group. -/
def matchCore (l : List Char) : Option (List Char) :=
  match matchLit "Button".toList l with
  | none => none
  | some r =>
      match r.dropWhile isPySpace with
      | '(' :: r3 => takeUntilParen r3
      | _ => none

/-- `(?:tk\.)?Button\s*\((.*?)\)` anchored at the head: the engine tries the
`tk.` prefix first, then the empty alternative. -/
def matchButtonAt (l : List Char) : Option (List Char) :=
  match matchLit "tk.".toList l with
  | some r =>
      match matchCore r with
      | some g => some g
      | none => matchCore l
  | none => matchCore l

/-- `re.search` of the guard pattern: leftmost match. -/
def searchButton : List Char → Option (List Char)
  | [] => none
  | c :: rest =>
      match matchButtonAt (c :: rest) with
      | some g => some g
      | none => searchButton rest

/-- The claim's pattern — a substring matching `Button\s*\(`, the
(optionally `tk.`-prefixed) opening of a Button call — anchored at the
head. -/
def buttonOpenAt (l : List Char) : Bool :=
  match matchLit "Button".toList l with
  | none => false
  | some r =>
      match r.dropWhile isPySpace with
      | '(' :: _ => true
      | _ => false

/-- The claim's pattern anywhere in the subject. -/
def searchButtonOpen : List Char → Bool
  | [] => false
  | c :: rest => buttonOpenAt (c :: rest) || searchButtonOpen rest

/-- Literal substring search (`x in s`). -/
def searchLit (pat : List Char) : List Char → Bool
  | [] => (matchLit pat []).isSome
  | c :: rest => (matchLit pat (c :: rest)).isSome || searchLit pat rest

/-- `re.search(r'(\w+)', value)`: the first maximal word-character run. -/
def firstWordRun : List Char → Option (List Char)
  | [] => none
  | c :: rest =>
      if isWordChar c then some (c :: rest.takeWhile isWordChar)
      else firstWordRun rest

/-- The parameter regex's lookahead `(?=,\s*\w+\s*=|$)` at a position. -/
def lookaheadOk (r : List Char) : Bool :=
  (match r with
   | ',' :: r1 =>
       let r2 := r1.dropWhile isPySpace
       let w := r2.takeWhile isWordChar
       if w = [] then false
       else
         match (r2.drop w.length).dropWhile isPySpace with
         | '=' :: _ => true
         | _ => false
   | _ => false) ||
  (r = [] || r = ['\n'])

/-- The lazy value group `([^,]+?)` followed by the lookahead: the shortest
nonempty comma-free prefix after which the lookahead holds.  Returns the
group and the remaining subject. -/
def lazyValue : List Char → Option (List Char × List Char)
  | [] => none
  | c :: rest =>
      if c = ',' then none
      else if lookaheadOk rest then some ([c], rest)
      else
        match lazyValue rest with
        | some (v, r) => some (c :: v, r)
        | none => none

/-- Backtracking of the greedy `\s*` before the value group: try skipping
`k` whitespace characters, longest first. -/
def valueGo (r3 : List Char) : Nat → Option (List Char × List Char)
  | 0 => lazyValue r3
  | k + 1 =>
      match lazyValue (r3.drop (k + 1)) with
      | some res => some res
      | none => valueGo r3 k

/-- `\s*([^,]+?)(?=,\s*\w+\s*=|$)` anchored at the head. -/
def valueAfterEq (r3 : List Char) : Option (List Char × List Char) :=
  valueGo r3 (r3.takeWhile isPySpace).length

/-- `(\w+)\s*=\s*([^,]+?)(?=...)` anchored at the head: the groups and the
remaining subject.  `\w+` and the `\s*` before `=` are deterministic (no
backtracking can help, as argued in the section comment). -/
def matchParamAt (l : List Char) : Option ((List Char × List Char) × List Char) :=
  let w := l.takeWhile isWordChar
  if w = [] then none
  else
    match (l.drop w.length).dropWhile isPySpace with
    | '=' :: r3 =>
        match valueAfterEq r3 with
        | some (v, rest) => some ((w, v), rest)
        | none => none
    | _ => none

/-- `re.findall` of the parameter regex: scan left to right, continuing
after each match.  `fuel` bounds the recursion (the subject length
suffices: every step consumes at least one character). -/
def findallParams : Nat → List Char → List (List Char × List Char)
  | 0, _ => []
  | _ + 1, [] => []
  | fuel + 1, c :: rest =>
      match matchParamAt (c :: rest) with
      | some (g, r) => g :: findallParams fuel r
      | none => findallParams fuel rest

/-- `param_mappings` (src/tkintertokivy.py:3757-3773); `none` models the
`None` entries skipped by the loop. -/
def paramMappings : List (String × Option String) :=
  [("text", some "text"), ("command", some "on_press"),
   ("width", some "size_hint_x"), ("height", some "size_hint_y"),
   ("bg", some "background_color"), ("background", some "background_color"),
   ("fg", some "color"), ("foreground", some "color"),
   ("font", some "font_name"), ("state", some "disabled"),
   ("relief", none), ("bd", none), ("borderwidth", none),
   ("padx", none), ("pady", none)]

/-- The parameter loop (src/tkintertokivy.py:3801-3838): builds
`kivy_params` and `kivy_bindings` in order. -/
def processParams : List (List Char × List Char) → List (List Char) × List (List Char)
  | [] => ([], [])
  | (name, value) :: rest =>
      let (kpR, kbR) := processParams rest
      let nameS := pyStrip name
      let valueS := pyStrip value
      match mlookup paramMappings ⟨nameS⟩ with
      | none =>
          (("# ".toList ++ nameS ++ ['='] ++ valueS ++
            "  # No direct Kivy equivalent".toList) :: kpR, kbR)
      | some none => (kpR, kbR)
      | some (some kivyParam) =>
          if (⟨nameS⟩ : String) = "command" then
            match firstWordRun valueS with
            | some fn => (kpR, ("button.bind(on_press=".toList ++ fn ++ [')']) :: kbR)
            | none => (kpR, kbR)
          else if (⟨nameS⟩ : String) = "state" then
            ((if searchLit "DISABLED".toList (valueS.map Char.toUpper) then
                "disabled=True".toList
              else "disabled=False".toList) :: kpR, kbR)
          else if (⟨nameS⟩ : String) = "width" then
            ((kivyParam.toList ++ "=None".toList) :: ("width=".toList ++ valueS) :: kpR, kbR)
          else if (⟨nameS⟩ : String) = "height" then
            ((kivyParam.toList ++ "=None".toList) :: ("height=".toList ++ valueS) :: kpR, kbR)
          else ((kivyParam.toList ++ ['='] ++ valueS) :: kpR, kbR)

/-- The matched branch of `translate_button`
(src/tkintertokivy.py:3782-3847), from the captured group. -/
def translateButtonParams (g : List Char) : List Char :=
  let paramsStr := pyStrip g
  let parts := (paramsStr.splitOn ',').map pyStrip
  let paramsStr2 :=
    match parts with
    | [] => paramsStr
    | p0 :: rest => if p0.contains '=' then paramsStr else List.intercalate [','] rest
  let params := findallParams paramsStr2.length paramsStr2
  let (kivyParams, kivyBindings) := processParams params
  let code := "Button(".toList ++ List.intercalate ", ".toList kivyParams ++ [')']
  if kivyBindings = [] then code
  else code ++ '\n' :: List.intercalate ['\n'] kivyBindings

/-- `translate_button(tkinter_button_code)` (src/tkintertokivy.py:3744-3847). -/
def translate_button (s : String) : String :=
  match searchButton s.toList with
  | none => "# Could not parse tkinter Button call"
  | some g => ⟨translateButtonParams g⟩

/-! ## C9: `FakeEntry` text access

Source: src/tkintertokivy.py:2301-2325.  `set` writes both `_value` and the
Kivy text while `get` prefers the Kivy text, so the observable text is a
single field in either regime.  `insert` uses Python slicing; negative and
out-of-range integer indices follow Python's clamping rules. -/

/-- Python slice `t[:i]` for an integer index: negative indices count from
the end, out-of-range indices clamp. -/
def pySliceTo (t : List Char) (i : Int) : List Char :=
  if i < 0 then t.take (t.length - i.natAbs) else t.take i.toNat

/-- Python slice `t[i:]`. -/
def pySliceFrom (t : List Char) (i : Int) : List Char :=
  if i < 0 then t.drop (t.length - i.natAbs) else t.drop i.toNat

/-- The observable state of a `FakeEntry`. -/
structure EntryState where
  text : String
  deriving Repr, DecidableEq

/-- An index argument of `FakeEntry.insert`: a Python int or str. -/
inductive PyIndex where
  | int (i : Int)
  | str (s : String)
  deriving Repr, DecidableEq

namespace FakeEntry

/-- `FakeEntry.get` (src/tkintertokivy.py:2301-2305). -/
def get (st : EntryState) : String := st.text

/-- `FakeEntry.set(text)` (src/tkintertokivy.py:2307-2312); for a string
argument `str(text)` is the identity. -/
def set (st : EntryState) (t : String) : EntryState := { st with text := t }

/-- `FakeEntry.insert(index, text)` (src/tkintertokivy.py:2314-2325):
`'end'` maps to `len(current)`, any other string index to `0`, and the new
text is `current[:index] + str(text) + current[index:]`. -/
def insert (st : EntryState) (index : PyIndex) (text : String) : EntryState :=
  let currentText := get st
  let i : Int :=
    match index with
    | .str s => if s = "end" then (currentText.length : Int) else 0
    | .int i => i
  set st
    ⟨pySliceTo currentText.toList i ++ text.toList ++ pySliceFrom currentText.toList i⟩

end FakeEntry

/-! ## C10: `FakeIntVar` / `FakeDoubleVar` conversion totality

Source: src/tkintertokivy.py:2506-2534 (`FakeIntVar`) and 2554-2582
(`FakeDoubleVar`).  Both wrap the conversion of the argument in
`try/except (ValueError, TypeError)`, storing `0` (resp. `0.0`) on those
failures.  Python values are modelled by an inductive covering the
conversion-relevant cases; `int(·)` and `float(·)` are modelled including
the exception each input raises: notably `int(float('inf'))` and
`float(n)` for `|n| ≥ 2^1024 - 2^970` raise `OverflowError`, which the
source does not catch.  The overflow threshold is exact: the largest finite
double is `2^1024 - 2^971`, and round-half-even sends every magnitude at or
above the midpoint `2^1024 - 2^970` up to `2^1024`, hence to the error. -/

/-- A Python float: exact finite rationals (none of the verified code paths
perform float arithmetic, so exactness is faithful), infinities and NaN. -/
inductive PyFloat where
  | finite (q : Rat)
  | inf
  | negInf
  | nan
  deriving Repr, DecidableEq

/-- The Python values relevant to the variable classes. -/
inductive PyValue where
  | int (n : Int)
  | float (f : PyFloat)
  | str (s : String)
  | bool (b : Bool)
  | none
  | list (label : Nat)
  deriving Repr, DecidableEq

/-- The exceptions the conversions can raise. -/
inductive PyErr where
  | valueError
  | typeError
  | overflowError
  deriving Repr, DecidableEq

/-- Truncation toward zero, the rounding of Python's `int(float)`
(`int(-0.5) = 0`): truncated integer division of numerator by denominator. -/
def ratTrunc (q : Rat) : Int := q.num.tdiv q.den

/-- Python `int(v)` for a value. -/
def pyInt (v : PyValue) : Except PyErr Int :=
  match v with
  | .int n => .ok n
  | .bool b => .ok (if b then 1 else 0)
  | .float (.finite q) => .ok (ratTrunc q)
  | .float .inf => .error .overflowError
  | .float .negInf => .error .overflowError
  | .float .nan => .error .valueError
  | .str s =>
      match pyIntBase10 s.toList with
      | some n => .ok n
      | Option.none => .error .valueError
  | .none => .error .typeError
  | .list _ => .error .typeError

/-- Split a float literal at the first `e`/`E`. -/
def splitAtExp : List Char → List Char × Option (List Char)
  | [] => ([], Option.none)
  | c :: rest =>
      if c = 'e' ∨ c = 'E' then ([], some rest)
      else
        let (m, e) := splitAtExp rest
        (c :: m, e)

/-- Split a float mantissa at the first `.`. -/
def splitAtDot : List Char → List Char × Option (List Char)
  | [] => ([], Option.none)
  | c :: rest =>
      if c = '.' then ([], some rest)
      else
        let (m, e) := splitAtDot rest
        (c :: m, e)

/-- Number of digit characters in a digit run (underscores excluded). -/
def digitCount (l : List Char) : Nat := (l.filter (fun c => c ≠ '_')).length

/-- The finite numeric body of a Python float literal (after the sign):
`digits [. digits] [(e|E) [sign] digits]`, at least one mantissa digit,
underscores between digits. -/
def floatFinite (l : List Char) : Option Rat :=
  let (mant, expPart) := splitAtExp l
  let mval : Option Rat :=
    match splitAtDot mant with
    | (ip, Option.none) => (digitsParse decDigitVal 10 ip).map (fun n => (n : Rat))
    | (ip, some fp) =>
        if ip = [] ∧ fp = [] then Option.none
        else
          let ipv := if ip = [] then some 0 else digitsParse decDigitVal 10 ip
          let fpv := if fp = [] then some 0 else digitsParse decDigitVal 10 fp
          match ipv, fpv with
          | some i, some f => some ((i : Rat) + (f : Rat) / (10 : Rat) ^ digitCount fp)
          | _, _ => Option.none
  match mval, expPart with
  | some m, Option.none => some m
  | some m, some ex =>
      let (eneg, edig) :=
        match ex with
        | '+' :: r => (false, r)
        | '-' :: r => (true, r)
        | r => (false, r)
      match digitsParse decDigitVal 10 edig with
      | some e => some (m * (10 : Rat) ^ (if eneg then -(e : Int) else (e : Int)))
      | Option.none => Option.none
  | Option.none, _ => Option.none

/-- Python `float(s)` on a string: strip, optional sign, `inf`, `infinity`
or `nan` (case-insensitive) or a finite literal; magnitudes that round to
`2^1024` or beyond — i.e. at or above the half-even midpoint
`2^1024 - 2^970` — overflow to the signed infinity (string conversion never
raises `OverflowError`). -/
def pyFloatParse (l : List Char) : Option PyFloat :=
  let body := fun (bl : List Char) (neg : Bool) =>
    let low := bl.map Char.toLower
    if low = "inf".toList ∨ low = "infinity".toList then
      some (if neg then PyFloat.negInf else PyFloat.inf)
    else if low = "nan".toList then some PyFloat.nan
    else
      match floatFinite bl with
      | some q =>
          if (2 : Rat) ^ (1024 : Nat) - (2 : Rat) ^ (970 : Nat) ≤ q then
            some (if neg then PyFloat.negInf else PyFloat.inf)
          else some (.finite (if neg then -q else q))
      | Option.none => Option.none
  match pyStrip l with
  | '+' :: rest => body rest false
  | '-' :: rest => body rest true
  | r => body r false

/-- Python `float(v)` for a value: `float(n)` for an int raises
`OverflowError` exactly when `|n|` rounds (half-even) to `2^1024` or
beyond, i.e. when `|n| ≥ 2^1024 - 2^970`. -/
def pyFloat (v : PyValue) : Except PyErr PyFloat :=
  match v with
  | .float f => .ok f
  | .int n =>
      if n.natAbs < 2 ^ 1024 - 2 ^ 970 then .ok (.finite n)
      else .error .overflowError
  | .bool b => .ok (.finite (if b then 1 else 0))
  | .str s =>
      match pyFloatParse s.toList with
      | some f => .ok f
      | Option.none => .error .valueError
  | .none => .error .typeError
  | .list _ => .error .typeError

/-- The observable state of a `FakeIntVar`. -/
structure IntVarState where
  value : Int
  callbacks : List Nat
  deriving Repr, DecidableEq

/-- The observable state of a `FakeDoubleVar`. -/
structure DoubleVarState where
  value : PyFloat
  callbacks : List Nat
  deriving Repr, DecidableEq

namespace FakeIntVar

/-- `FakeIntVar.__init__(value=0)` (src/tkintertokivy.py:2507-2512): only
`ValueError` and `TypeError` are caught (storing 0); anything else
propagates. -/
def init (v : PyValue) : Except PyErr IntVarState :=
  match pyInt v with
  | .ok n => .ok ⟨n, []⟩
  | .error .valueError => .ok ⟨0, []⟩
  | .error .typeError => .ok ⟨0, []⟩
  | .error e => .error e

/-- `FakeIntVar.set(value)` (src/tkintertokivy.py:2518-2534): convert (with
the same `except` clause), then fire the callbacks iff the stored value
changed; returns the new state and the fired list, or the uncaught
exception. -/
def set (st : IntVarState) (v : PyValue) : Except PyErr (IntVarState × List Nat) :=
  let old := st.value
  match pyInt v with
  | .ok n =>
      let st2 : IntVarState := { st with value := n }
      .ok (st2, if old ≠ n then st2.callbacks else [])
  | .error .valueError =>
      let st2 : IntVarState := { st with value := 0 }
      .ok (st2, if old ≠ 0 then st2.callbacks else [])
  | .error .typeError =>
      let st2 : IntVarState := { st with value := 0 }
      .ok (st2, if old ≠ 0 then st2.callbacks else [])
  | .error e => .error e

/-- `FakeIntVar.get` (src/tkintertokivy.py:2514-2516): always an `Int`. -/
def get (st : IntVarState) : Int := st.value

end FakeIntVar

namespace FakeDoubleVar

/-- `FakeDoubleVar.__init__(value=0.0)` (src/tkintertokivy.py:2555-2560). -/
def init (v : PyValue) : Except PyErr DoubleVarState :=
  match pyFloat v with
  | .ok f => .ok ⟨f, []⟩
  | .error .valueError => .ok ⟨.finite 0, []⟩
  | .error .typeError => .ok ⟨.finite 0, []⟩
  | .error e => .error e

/-- `FakeDoubleVar.set(value)` (src/tkintertokivy.py:2566-2582). -/
def set (st : DoubleVarState) (v : PyValue) : Except PyErr (DoubleVarState × List Nat) :=
  let old := st.value
  match pyFloat v with
  | .ok f =>
      let st2 : DoubleVarState := { st with value := f }
      .ok (st2, if old ≠ f then st2.callbacks else [])
  | .error .valueError =>
      let st2 : DoubleVarState := { st with value := .finite 0 }
      .ok (st2, if old ≠ .finite 0 then st2.callbacks else [])
  | .error .typeError =>
      let st2 : DoubleVarState := { st with value := .finite 0 }
      .ok (st2, if old ≠ .finite 0 then st2.callbacks else [])
  | .error e => .error e

/-- `FakeDoubleVar.get` (src/tkintertokivy.py:2562-2564): always a float. -/
def get (st : DoubleVarState) : PyFloat := st.value

end FakeDoubleVar

end TkinterToKivy

/-! ## Theorems -/

open TkinterToKivy

namespace TkinterToKivy

@[simp] theorem mlookup_merase_self {α : Type} (m : List (String × α)) (k : String) :
    mlookup (merase m k) k = none := by
  induction m with
  | nil => rfl
  | cons p rest ih =>
      obtain ⟨k', v⟩ := p
      by_cases h : k' = k
      · simpa [merase, h] using ih
      · simpa [merase, mlookup, h] using ih

@[simp] theorem mlookup_merase_ne {α : Type} (m : List (String × α)) (k k' : String)
    (h : k' ≠ k) : mlookup (merase m k) k' = mlookup m k' := by
  induction m with
  | nil => rfl
  | cons p rest ih =>
      obtain ⟨k₀, v⟩ := p
      by_cases hp : k₀ = k
      · subst hp
        simpa [merase, mlookup, h.symm] using ih
      · by_cases hp' : k₀ = k'
        · subst hp'
          simp [merase, hp, mlookup]
        · simp [merase, hp, mlookup, hp', ih]

@[simp] theorem mlookup_mset_self {α : Type} (m : List (String × α)) (k : String) (v : α) :
    mlookup (mset m k v) k = some v := by
  simp [mset, mlookup]

@[simp] theorem mlookup_mset_ne {α : Type} (m : List (String × α)) (k k' : String) (v : α)
    (h : k' ≠ k) : mlookup (mset m k v) k' = mlookup m k' := by
  have : k ≠ k' := fun hk => h hk.symm
  simp [mset, mlookup, this, mlookup_merase_ne m k k' h]

theorem isPySpace_false_of_hexDigit (c : Char) (v : Nat) (h : hexDigitVal c = some v) :
    isPySpace c = false := by
  unfold hexDigitVal at h
  split_ifs at h with h1 h2 h3
  · simp only [isPySpace]; simp only [Bool.or_eq_false_iff, decide_eq_false_iff_not]; omega
  · simp only [isPySpace]; simp only [Bool.or_eq_false_iff, decide_eq_false_iff_not]; omega
  · simp only [isPySpace]; simp only [Bool.or_eq_false_iff, decide_eq_false_iff_not]; omega

theorem pyStrip_pair_of_hexDigits (a b : Char) (va vb : Nat)
    (ha : hexDigitVal a = some va) (hb : hexDigitVal b = some vb) :
    pyStrip [a, b] = [a, b] := by
  have hsa := isPySpace_false_of_hexDigit a va ha
  have hsb := isPySpace_false_of_hexDigit b vb hb
  simp [pyStrip, List.dropWhile, hsa, hsb]

theorem pyIntBase16_two_hex (a b : Char) (va vb : Nat)
    (ha : hexDigitVal a = some va) (hb : hexDigitVal b = some vb) :
    pyIntBase16 [a, b] = some (Int.ofNat (va * 16 + vb)) := by
  unfold pyIntBase16
  rw [pyStrip_pair_of_hexDigits a b va vb ha hb]
  split
  · rename_i rest heq
    injection heq with h1 _
    rw [h1] at ha
    simp [show hexDigitVal '+' = none from by decide] at ha
  · rename_i rest heq
    injection heq with h1 _
    rw [h1] at ha
    simp [show hexDigitVal '-' = none from by decide] at ha
  · rename_i r hne1 hne2
    unfold hexUnsigned
    split
    · rename_i rest heq
      injection heq with h1 h2
      injection h2 with h2 _
      rw [h2] at hb
      simp [show hexDigitVal 'x' = none from by decide] at hb
    · rename_i rest heq
      injection heq with h1 h2
      injection h2 with h2 _
      rw [h2] at hb
      simp [show hexDigitVal 'X' = none from by decide] at hb
    · simp only [digitsParse, ha]
      unfold digitsCore
      split
      · rename_i heq
        exact absurd heq (by simp)
      · rename_i c rest heq
        injection heq with h1 _
        rw [h1] at hb
        simp [show hexDigitVal '_' = none from by decide] at hb
      · rename_i heq
        injection heq with h1 _
        rw [h1] at hb
        simp [show hexDigitVal '_' = none from by decide] at hb
      · rename_i c rest heq
        injection heq with h1 h2
        subst h1
        subst h2
        simp [hb, digitsCore]

theorem hexColorBranch_six_hex (dflt : KColor) (c1 c2 c3 c4 c5 c6 : Char)
    (v1 v2 v3 v4 v5 v6 : Nat)
    (h1 : hexDigitVal c1 = some v1) (h2 : hexDigitVal c2 = some v2)
    (h3 : hexDigitVal c3 = some v3) (h4 : hexDigitVal c4 = some v4)
    (h5 : hexDigitVal c5 = some v5) (h6 : hexDigitVal c6 = some v6) :
    hexColorBranch dflt [c1, c2, c3, c4, c5, c6] =
      (((v1 * 16 + v2 : Nat) : Rat) / 255, ((v3 * 16 + v4 : Nat) : Rat) / 255,
       ((v5 * 16 + v6 : Nat) : Rat) / 255, 1) := by
  unfold hexColorBranch
  rw [if_pos (by simp)]
  rw [show ([c1, c2, c3, c4, c5, c6].take 2) = [c1, c2] from rfl,
    show (([c1, c2, c3, c4, c5, c6].drop 2).take 2) = [c3, c4] from rfl,
    show ([c1, c2, c3, c4, c5, c6].drop 4) = [c5, c6] from rfl,
    pyIntBase16_two_hex c1 c2 v1 v2 h1 h2, pyIntBase16_two_hex c3 c4 v3 v4 h3 h4,
    pyIntBase16_two_hex c5 c6 v5 v6 h5 h6]
  norm_num

theorem hashString_ne (rest : List Char) (t : String) (h : t.toList.head? ≠ some '#') :
    (⟨'#' :: rest⟩ : String) ≠ t :=
  fun he => h (by rw [← he]; rfl)

theorem buttonBgColor_hashPrefix (rest : List Char) :
    buttonBgColor ⟨'#' :: rest⟩ = hexColorBranch (9/10, 9/10, 9/10, 1) rest := by
  simp only [buttonBgColor]
  rw [if_neg (hashString_ne rest "" (by decide)),
    if_neg (hashString_ne rest "white" (by decide)),
    if_neg (hashString_ne rest "black" (by decide)),
    if_neg (hashString_ne rest "blue" (by decide)),
    if_neg (hashString_ne rest "red" (by decide)),
    if_neg (hashString_ne rest "green" (by decide)),
    if_neg (not_or.mpr ⟨hashString_ne rest "gray" (by decide),
      hashString_ne rest "grey" (by decide)⟩),
    if_pos (show (⟨'#' :: rest⟩ : String).toList.head? = some '#' from rfl)]
  rfl

theorem frameBgColor_hashPrefix (rest : List Char) :
    frameBgColor ⟨'#' :: rest⟩ = hexColorBranch (9/10, 9/10, 9/10, 1) rest := by
  simp only [frameBgColor]
  rw [if_neg (hashString_ne rest "" (by decide)),
    if_neg (hashString_ne rest "white" (by decide)),
    if_neg (hashString_ne rest "black" (by decide)),
    if_pos (show (⟨'#' :: rest⟩ : String).toList.head? = some '#' from rfl)]
  rfl

theorem canvasBgColor_hashPrefix (rest : List Char) :
    canvasBgColor ⟨'#' :: rest⟩ = hexColorBranch (1, 1, 1, 1) rest := by
  simp only [canvasBgColor]
  rw [if_neg (hashString_ne rest "" (by decide)),
    if_neg (hashString_ne rest "white" (by decide)),
    if_neg (hashString_ne rest "black" (by decide)),
    if_pos (show (⟨'#' :: rest⟩ : String).toList.head? = some '#' from rfl)]
  rfl

end TkinterToKivy

/-- **C1.** For every `FakeStringVar` state and every callback registered via
`trace`, `set(v)` invokes each registered trace callback exactly once
(the fired list counts each registration once) iff `str(v)` differs from the
stored value; when `str(v)` equals the stored value no callback is invoked
and the stored value (indeed the whole state) is unchanged. -/
theorem C1_stringvar_trace_fires_iff_changed (st : StringVarState) (v : String) :
    (FakeStringVar.set st v).2 =
      (if v ≠ st.value then st.callbacks else []) ∧
    (FakeStringVar.set st v).1.value = v ∧
    (v = st.value → (FakeStringVar.set st v).1 = st ∧ (FakeStringVar.set st v).2 = []) ∧
    (∀ cb, (FakeStringVar.set st v).2.count cb =
      if v ≠ st.value then st.callbacks.count cb else 0) := by
  unfold FakeStringVar.set
  by_cases h : st.value = v
  · subst h
    simp
  · constructor
    · simp [Ne.symm h, h]
    · refine ⟨by simp [h], fun hv => absurd hv.symm h, fun cb => ?_⟩
      simp [h, Ne.symm h]

/-- **C2.** `auto_translate_mode()` installs the fake `tkinter`,
`tkinter.font`, `tkinter.ttk`, `tkinter.messagebox` modules into
`sys.modules`, whose attributes (`Tk`, `Button`, ..., `BooleanVar`) are the
fake shim classes, saving any pre-existing `tkinter` module; a subsequent
`disable_auto_translate()` restores the saved original `tkinter` module (or
removes the key when no original existed) and removes the three submodule
entries. -/
theorem C2_auto_translate_roundtrip (st : ModState) :
    mlookup (autoTranslateMode st).sysModules "tkinter" = some PyModule.fakeTkinter ∧
    mlookup (autoTranslateMode st).sysModules "tkinter.font" = some PyModule.fakeFont ∧
    mlookup (autoTranslateMode st).sysModules "tkinter.ttk" = some PyModule.fakeTtk ∧
    mlookup (autoTranslateMode st).sysModules "tkinter.messagebox" =
      some PyModule.fakeMessagebox ∧
    (mlookup fakeTkinterAttrs "Tk" = some "FakeTk" ∧
     mlookup fakeTkinterAttrs "Button" = some "FakeButton" ∧
     mlookup fakeTkinterAttrs "Label" = some "FakeLabel" ∧
     mlookup fakeTkinterAttrs "Frame" = some "FakeFrame" ∧
     mlookup fakeTkinterAttrs "Canvas" = some "FakeCanvas" ∧
     mlookup fakeTkinterAttrs "Scrollbar" = some "FakeScrollbar" ∧
     mlookup fakeTkinterAttrs "Menu" = some "FakeMenu" ∧
     mlookup fakeTkinterAttrs "Entry" = some "FakeEntry" ∧
     mlookup fakeTkinterAttrs "Text" = some "FakeText" ∧
     mlookup fakeTkinterAttrs "StringVar" = some "FakeStringVar" ∧
     mlookup fakeTkinterAttrs "IntVar" = some "FakeIntVar" ∧
     mlookup fakeTkinterAttrs "DoubleVar" = some "FakeDoubleVar" ∧
     mlookup fakeTkinterAttrs "BooleanVar" = some "FakeBooleanVar" ∧
     mlookup fakeTtkAttrs "Button" = some "FakeButton") ∧
    (∀ m, mlookup st.sysModules "tkinter" = some m →
      mlookup (autoTranslateMode st).originalModules "tkinter" = some m ∧
      mlookup (disableAutoTranslate (autoTranslateMode st)).sysModules "tkinter" = some m) ∧
    (mlookup st.sysModules "tkinter" = none →
      mlookup st.originalModules "tkinter" = none →
      mlookup (disableAutoTranslate (autoTranslateMode st)).sysModules "tkinter" = none) ∧
    mlookup (disableAutoTranslate (autoTranslateMode st)).sysModules "tkinter.font" = none ∧
    mlookup (disableAutoTranslate (autoTranslateMode st)).sysModules "tkinter.ttk" = none ∧
    mlookup (disableAutoTranslate (autoTranslateMode st)).sysModules "tkinter.messagebox" =
      none := by
  have hf : ("tkinter.font" : String) ≠ "tkinter" := by decide
  have ht : ("tkinter.ttk" : String) ≠ "tkinter" := by decide
  have hm : ("tkinter.messagebox" : String) ≠ "tkinter" := by decide
  have htf : ("tkinter.ttk" : String) ≠ "tkinter.font" := by decide
  have hmf : ("tkinter.messagebox" : String) ≠ "tkinter.font" := by decide
  have hmt : ("tkinter.messagebox" : String) ≠ "tkinter.ttk" := by decide
  have hkf : ("tkinter" : String) ≠ "tkinter.font" := fun h => hf h.symm
  have hkt : ("tkinter" : String) ≠ "tkinter.ttk" := fun h => ht h.symm
  have hkm : ("tkinter" : String) ≠ "tkinter.messagebox" := fun h => hm h.symm
  refine ⟨?_, ?_, ?_, ?_, ?_, ?_, ?_, ?_, ?_, ?_⟩
  · simp [autoTranslateMode, hf, ht, hm]
  · simp [autoTranslateMode, htf, hmf]
  · simp [autoTranslateMode, hmt]
  · simp [autoTranslateMode]
  · refine ⟨?_, ?_, ?_, ?_, ?_, ?_, ?_, ?_, ?_, ?_, ?_, ?_, ?_, ?_⟩ <;> decide
  · intro m hm0
    constructor
    · simp [autoTranslateMode, hm0]
    · simp [disableAutoTranslate, autoTranslateMode, hm0, hf, ht, hm, htf, hmf, hmt,
        hkf, hkt, hkm]
  · intro hnone horig
    simp [disableAutoTranslate, autoTranslateMode, hnone, horig, hf, ht, hm, htf, hmf, hmt,
      hkf, hkt, hkm]
  · rcases h0 : mlookup st.sysModules "tkinter" with _ | m <;>
      simp [disableAutoTranslate, autoTranslateMode, h0, hf, ht, hm, htf, hmf, hmt] <;>
      rcases h1 : mlookup st.originalModules "tkinter" with _ | m' <;>
      simp [h1, hf, ht, hm, htf, hmf, hmt]
  · rcases h0 : mlookup st.sysModules "tkinter" with _ | m <;>
      simp [disableAutoTranslate, autoTranslateMode, h0, hf, ht, hm, htf, hmf, hmt] <;>
      rcases h1 : mlookup st.originalModules "tkinter" with _ | m' <;>
      simp [h1, hf, ht, hm, htf, hmf, hmt]
  · rcases h0 : mlookup st.sysModules "tkinter" with _ | m <;>
      simp [disableAutoTranslate, autoTranslateMode, h0, hf, ht, hm, htf, hmf, hmt] <;>
      rcases h1 : mlookup st.originalModules "tkinter" with _ | m' <;>
      simp [h1, hf, ht, hm, htf, hmf, hmt]

/-- Witness for C2 at a concrete state: a pre-existing real `tkinter` module
(label 7) is saved and restored. -/
theorem C2_auto_translate_roundtrip_witness :
    mlookup (autoTranslateMode ⟨[("tkinter", PyModule.real 7)], []⟩).sysModules "tkinter" =
      some PyModule.fakeTkinter ∧
    mlookup (disableAutoTranslate
        (autoTranslateMode ⟨[("tkinter", PyModule.real 7)], []⟩)).sysModules "tkinter" =
      some (PyModule.real 7) :=
  ⟨(C2_auto_translate_roundtrip ⟨[("tkinter", PyModule.real 7)], []⟩).1,
   ((C2_auto_translate_roundtrip ⟨[("tkinter", PyModule.real 7)], []⟩).2.2.2.2.2.1
      (PyModule.real 7) rfl).2⟩

/-- **C3.** For each of the ten fake widget classes defining both geometry
managers, `grid(**kwargs)` performs exactly the same state change as
`pack(**kwargs)` on the widget and its parent, for every argument
dictionary: each `grid` body is precisely `self.pack(**kwargs)`. -/
theorem C3_grid_equals_pack (w : KivyObj) (self : FrameSelf) (kwargs : GeomKwargs)
    (p : ParentState) :
    FakeButton.grid w kwargs p = FakeButton.pack w kwargs p ∧
    FakeLabel.grid w kwargs p = FakeLabel.pack w kwargs p ∧
    FakeFrame.grid self kwargs p = FakeFrame.pack self kwargs p ∧
    FakeCanvas.grid w kwargs p = FakeCanvas.pack w kwargs p ∧
    FakeScrollbar.grid w kwargs p = FakeScrollbar.pack w kwargs p ∧
    FakeNotebook.grid w kwargs p = FakeNotebook.pack w kwargs p ∧
    FakeEntry.grid w kwargs p = FakeEntry.pack w kwargs p ∧
    FakeCheckbutton.grid w kwargs p = FakeCheckbutton.pack w kwargs p ∧
    FakeRadiobutton.grid w kwargs p = FakeRadiobutton.pack w kwargs p ∧
    FakeText.grid w kwargs p = FakeText.pack w kwargs p :=
  ⟨rfl, rfl, rfl, rfl, rfl, rfl, rfl, rfl, rfl, rfl⟩

/-- **C4 counterexample.** The claim says every `'#'`-prefixed string whose
remainder is not six hexadecimal digits yields the widget's fixed default
tuple.  `"#-1-2-3"` refutes it: its remainder `-1-2-3` contains no-hex
characters (`-`), yet Python's `int(·, 16)` accepts a sign, so the slices
`-1`, `-2`, `-3` convert to `-1`, `-2`, `-3` and the button background
becomes `(-1/255, -2/255, -3/255, 1)`, not `(0.9, 0.9, 0.9, 1)`. -/
theorem C4_counterexample_signed_hex :
    buttonBgColor "#-1-2-3" = ((-1 : Rat) / 255, (-2 : Rat) / 255, (-3 : Rat) / 255, 1) ∧
    buttonBgColor "#-1-2-3" ≠ ((9 : Rat) / 10, (9 : Rat) / 10, (9 : Rat) / 10, 1) ∧
    ("-1-2-3".toList.all (fun c => (hexDigitVal c).isSome)) = false := by
  have e1 : pyIntBase16 ['-', '1'] = some (-1) := by decide
  have e2 : pyIntBase16 ['-', '2'] = some (-2) := by decide
  have e3 : pyIntBase16 ['-', '3'] = some (-3) := by decide
  have heq : buttonBgColor "#-1-2-3" =
      ((-1 : Rat) / 255, (-2 : Rat) / 255, (-3 : Rat) / 255, 1) := by
    rw [show ("#-1-2-3" : String) = ⟨'#' :: "-1-2-3".toList⟩ from rfl,
      buttonBgColor_hashPrefix]
    unfold hexColorBranch
    rw [if_pos (by decide),
      show ("-1-2-3".toList.take 2) = ['-', '1'] from rfl,
      show (("-1-2-3".toList.drop 2).take 2) = ['-', '2'] from rfl,
      show ("-1-2-3".toList.drop 4) = ['-', '3'] from rfl, e1, e2, e3]
    norm_num
  refine ⟨heq, ?_, by decide⟩
  rw [heq]
  intro h
  have h1 := congrArg (fun t : KColor => t.1) h
  norm_num at h1

namespace TkinterToKivy

theorem hexColorBranch_default_of_bad_length (dflt : KColor) (rest : List Char)
    (h : rest.length ≠ 6) : hexColorBranch dflt rest = dflt := by
  unfold hexColorBranch
  rw [if_neg h]

theorem hexColorBranch_default_of_bad_slice (dflt : KColor) (rest : List Char)
    (hlen : rest.length = 6)
    (h : pyIntBase16 (rest.take 2) = none ∨ pyIntBase16 ((rest.drop 2).take 2) = none ∨
      pyIntBase16 (rest.drop 4) = none) :
    hexColorBranch dflt rest = dflt := by
  unfold hexColorBranch
  rw [if_pos hlen]
  rcases e1 : pyIntBase16 (rest.take 2) with _ | r
  · simp [e1]
  · rcases e2 : pyIntBase16 ((rest.drop 2).take 2) with _ | g
    · simp [e2]
    · rcases e3 : pyIntBase16 (rest.drop 4) with _ | b
      · simp [e3]
      · simp [e1, e2, e3] at h
  
theorem hexColorBranch_of_slices (dflt : KColor) (rest : List Char) (r g b : Int)
    (hlen : rest.length = 6)
    (h1 : pyIntBase16 (rest.take 2) = some r)
    (h2 : pyIntBase16 ((rest.drop 2).take 2) = some g)
    (h3 : pyIntBase16 (rest.drop 4) = some b) :
    hexColorBranch dflt rest = ((r : Rat) / 255, (g : Rat) / 255, (b : Rat) / 255, 1) := by
  unfold hexColorBranch
  rw [if_pos hlen]
  simp [h1, h2, h3]

end TkinterToKivy

/-- **C4 (amended).** For a background string `'#' + six hex digits RRGGBB`
the widget color parsing of `FakeButton`, `FakeFrame` and `FakeCanvas`
produces `(R/255, G/255, B/255, 1)`.  For a `'#'`-prefixed string whose
remainder does not have length six, each widget produces its fixed default
(`(0.9, 0.9, 0.9, 1)` for button and frame, `(1, 1, 1, 1)` for canvas).
When the remainder has length six, the outcome is decided by Python's
`int(·, 16)` on the three two-character slices — which also accepts signs,
whitespace, underscores and `0x` prefixes: if any slice fails to convert the
widget default results, and otherwise the tuple `(r/255, g/255, b/255, 1)`
of the converted (possibly out-of-range) values results.  No input raises
(all branches are wrapped in `try/except`). -/
theorem C4_amended_hex_color_parsing :
    (∀ c1 c2 c3 c4 c5 c6 v1 v2 v3 v4 v5 v6,
      hexDigitVal c1 = some v1 → hexDigitVal c2 = some v2 →
      hexDigitVal c3 = some v3 → hexDigitVal c4 = some v4 →
      hexDigitVal c5 = some v5 → hexDigitVal c6 = some v6 →
      buttonBgColor ⟨'#' :: [c1, c2, c3, c4, c5, c6]⟩ =
        (((v1 * 16 + v2 : Nat) : Rat) / 255, ((v3 * 16 + v4 : Nat) : Rat) / 255,
         ((v5 * 16 + v6 : Nat) : Rat) / 255, 1) ∧
      frameBgColor ⟨'#' :: [c1, c2, c3, c4, c5, c6]⟩ =
        (((v1 * 16 + v2 : Nat) : Rat) / 255, ((v3 * 16 + v4 : Nat) : Rat) / 255,
         ((v5 * 16 + v6 : Nat) : Rat) / 255, 1) ∧
      canvasBgColor ⟨'#' :: [c1, c2, c3, c4, c5, c6]⟩ =
        (((v1 * 16 + v2 : Nat) : Rat) / 255, ((v3 * 16 + v4 : Nat) : Rat) / 255,
         ((v5 * 16 + v6 : Nat) : Rat) / 255, 1)) ∧
    (∀ rest : List Char, rest.length ≠ 6 →
      buttonBgColor ⟨'#' :: rest⟩ = (9/10, 9/10, 9/10, 1) ∧
      frameBgColor ⟨'#' :: rest⟩ = (9/10, 9/10, 9/10, 1) ∧
      canvasBgColor ⟨'#' :: rest⟩ = (1, 1, 1, 1)) ∧
    (∀ rest : List Char, rest.length = 6 →
      (pyIntBase16 (rest.take 2) = none ∨ pyIntBase16 ((rest.drop 2).take 2) = none ∨
        pyIntBase16 (rest.drop 4) = none) →
      buttonBgColor ⟨'#' :: rest⟩ = (9/10, 9/10, 9/10, 1) ∧
      frameBgColor ⟨'#' :: rest⟩ = (9/10, 9/10, 9/10, 1) ∧
      canvasBgColor ⟨'#' :: rest⟩ = (1, 1, 1, 1)) ∧
    (∀ (rest : List Char) (r g b : Int), rest.length = 6 →
      pyIntBase16 (rest.take 2) = some r → pyIntBase16 ((rest.drop 2).take 2) = some g →
      pyIntBase16 (rest.drop 4) = some b →
      buttonBgColor ⟨'#' :: rest⟩ = ((r : Rat) / 255, (g : Rat) / 255, (b : Rat) / 255, 1) ∧
      frameBgColor ⟨'#' :: rest⟩ = ((r : Rat) / 255, (g : Rat) / 255, (b : Rat) / 255, 1) ∧
      canvasBgColor ⟨'#' :: rest⟩ = ((r : Rat) / 255, (g : Rat) / 255, (b : Rat) / 255, 1)) := by
  refine ⟨?_, ?_, ?_, ?_⟩
  · intro c1 c2 c3 c4 c5 c6 v1 v2 v3 v4 v5 v6 h1 h2 h3 h4 h5 h6
    rw [buttonBgColor_hashPrefix, frameBgColor_hashPrefix, canvasBgColor_hashPrefix,
      hexColorBranch_six_hex (9/10, 9/10, 9/10, 1) c1 c2 c3 c4 c5 c6 v1 v2 v3 v4 v5 v6
        h1 h2 h3 h4 h5 h6,
      hexColorBranch_six_hex (1, 1, 1, 1) c1 c2 c3 c4 c5 c6 v1 v2 v3 v4 v5 v6
        h1 h2 h3 h4 h5 h6]
    exact ⟨rfl, rfl, rfl⟩
  · intro rest h
    rw [buttonBgColor_hashPrefix, frameBgColor_hashPrefix, canvasBgColor_hashPrefix,
      hexColorBranch_default_of_bad_length _ rest h,
      hexColorBranch_default_of_bad_length _ rest h]
    exact ⟨rfl, rfl, rfl⟩
  · intro rest hlen h
    rw [buttonBgColor_hashPrefix, frameBgColor_hashPrefix, canvasBgColor_hashPrefix,
      hexColorBranch_default_of_bad_slice _ rest hlen h,
      hexColorBranch_default_of_bad_slice _ rest hlen h]
    exact ⟨rfl, rfl, rfl⟩
  · intro rest r g b hlen h1 h2 h3
    rw [buttonBgColor_hashPrefix, frameBgColor_hashPrefix, canvasBgColor_hashPrefix,
      hexColorBranch_of_slices (9/10, 9/10, 9/10, 1) rest r g b hlen h1 h2 h3,
      hexColorBranch_of_slices (1, 1, 1, 1) rest r g b hlen h1 h2 h3]
    exact ⟨rfl, rfl, rfl⟩

/-- Witness for C4 (amended) at `"#0a0b0c"`. -/
theorem C4_amended_hex_color_parsing_witness :
    hexDigitVal 'a' = some 10 ∧
    buttonBgColor "#0a0b0c" =
      (((0 * 16 + 10 : Nat) : Rat) / 255, ((0 * 16 + 11 : Nat) : Rat) / 255,
       ((0 * 16 + 12 : Nat) : Rat) / 255, 1) :=
  ⟨by decide,
   (C4_amended_hex_color_parsing.1 '0' 'a' '0' 'b' '0' 'c' 0 10 0 11 0 12
     (by decide) (by decide) (by decide) (by decide) (by decide) (by decide)).1⟩

namespace TkinterToKivy

theorem merase_eq_of_lookup_none {α : Type} (m : List (String × α)) (k : String)
    (h : mlookup m k = none) : merase m k = m := by
  induction m with
  | nil => rfl
  | cons p rest ih =>
      obtain ⟨k₀, v⟩ := p
      by_cases hp : k₀ = k
      · simp [mlookup, hp] at h
      · simp only [mlookup, if_neg hp] at h
        simp [merase, hp, ih h]

end TkinterToKivy

/-- **C5.** `after(delay, func, *args)` returns a job id of the form
`after_job_N` with `N = randint(1000, 9999)` (so `1000 ≤ N ≤ 9999`), records
it in `_after_jobs`, and has already started the worker thread that will
eventually invoke `func`; `after_cancel(job_id)` only deletes the id from
the tracking map (leaving the map unchanged when the id is absent) and never
removes a started call: there is no cancellation guarantee. -/
theorem C5_after_schedule_and_cancel (st : TkSchedState) (func rand : Nat)
    (hlo : 1000 ≤ rand) (hhi : rand ≤ 9999) :
    ((FakeTk.after st func rand).1 = "after_job_" ++ toString rand ∧
     ∃ n, (FakeTk.after st func rand).1 = "after_job_" ++ toString n ∧
       1000 ≤ n ∧ n ≤ 9999) ∧
    mlookup (FakeTk.after st func rand).2.afterJobs ("after_job_" ++ toString rand) =
      some st.startedCalls.length ∧
    (FakeTk.after st func rand).2.startedCalls = st.startedCalls ++ [func] ∧
    (∀ j, (FakeTk.after_cancel st j).startedCalls = st.startedCalls) ∧
    (∀ j, (FakeTk.after_cancel (FakeTk.after st func rand).2 j).startedCalls =
      st.startedCalls ++ [func]) ∧
    (∀ j, mlookup st.afterJobs j = none → FakeTk.after_cancel st j = st) ∧
    (∀ j, (FakeTk.after_cancel st j).afterJobs = merase st.afterJobs j) := by
  refine ⟨⟨rfl, rand, rfl, hlo, hhi⟩, ?_, rfl, ?_, ?_, ?_, ?_⟩
  · simp [FakeTk.after]
  · intro j
    unfold FakeTk.after_cancel
    split <;> rfl
  · intro j
    unfold FakeTk.after_cancel
    split <;> rfl
  · intro j h
    unfold FakeTk.after_cancel
    rw [h]
    rfl
  · intro j
    unfold FakeTk.after_cancel
    split
    · rfl
    · rename_i h
      have hn : mlookup st.afterJobs j = none := by
        rcases he : mlookup st.afterJobs j with _ | v
        · rfl
        · rw [he] at h
          simp at h
      rw [merase_eq_of_lookup_none st.afterJobs j hn]

/-- Witness for C5 at a concrete state and draw. -/
theorem C5_after_schedule_and_cancel_witness :
    (1000 : Nat) ≤ 1234 ∧
    (FakeTk.after ⟨[], []⟩ 5 1234).1 = "after_job_" ++ toString 1234 :=
  ⟨by decide,
   ((C5_after_schedule_and_cancel ⟨[], []⟩ 5 1234 (by decide) (by decide)).1).1⟩

/-- **C6 counterexample.** The claim says that after `wm_state(s)` a
subsequent `wm_state()` returns `s` for every prior operation sequence.
With prior history `[iconify()]`, calling `wm_state('normal')` returns
`'normal'` but the subsequent `wm_state()` returns `'iconic'`: `deiconify`
clears only the `_withdrawn` flag and leaves `_iconified` set. -/
theorem C6_counterexample_normal_after_iconify :
    (FakeTk.wm_stateSet (runWinOps [WinOp.iconifyOp] initWinState) "normal").1 = "normal" ∧
    FakeTk.wm_stateGet
      (runWinOps [WinOp.iconifyOp, WinOp.wmSet "normal"] initWinState) = "iconic" ∧
    ("iconic" : String) ≠ "normal" := by
  refine ⟨rfl, rfl, by decide⟩

/-- **C6 (amended).** For every prior operation sequence and every state `s`
in `{'withdrawn', 'iconic', 'normal'}`, `wm_state(s)` returns `s`.  A
subsequent `wm_state()` returns `s` unconditionally for `s = 'withdrawn'`;
for `s = 'iconic'` it returns `s` iff the window was not withdrawn, and for
`s = 'normal'` iff the window was not iconified, because `iconify` does not
clear the withdrawn flag and `deiconify` does not clear the iconified
flag. -/
theorem C6_amended_wm_state (ops : List WinOp) (s : String)
    (hs : s = "withdrawn" ∨ s = "iconic" ∨ s = "normal") :
    (FakeTk.wm_stateSet (runWinOps ops initWinState) s).1 = s ∧
    (s = "withdrawn" →
      FakeTk.wm_stateGet (FakeTk.wm_stateSet (runWinOps ops initWinState) s).2 = s) ∧
    (s = "iconic" →
      (FakeTk.wm_stateGet (FakeTk.wm_stateSet (runWinOps ops initWinState) s).2 = s ↔
        (runWinOps ops initWinState).withdrawn = false)) ∧
    (s = "normal" →
      (FakeTk.wm_stateGet (FakeTk.wm_stateSet (runWinOps ops initWinState) s).2 = s ↔
        (runWinOps ops initWinState).iconified = false)) := by
  generalize runWinOps ops initWinState = st
  obtain ⟨w, i⟩ := st
  rcases hs with h | h | h <;> subst h <;> cases w <;> cases i <;> decide

/-- Witness for C6 (amended): with prior history `[iconify()]`,
`wm_state('normal')` returns `'normal'`. -/
theorem C6_amended_wm_state_witness :
    (FakeTk.wm_stateSet (runWinOps [WinOp.iconifyOp] initWinState) "normal").1 = "normal" ∧
    (("normal" : String) = "withdrawn" ∨ ("normal" : String) = "iconic" ∨
      ("normal" : String) = "normal") :=
  ⟨(C6_amended_wm_state [WinOp.iconifyOp] "normal" (Or.inr (Or.inr rfl))).1,
   Or.inr (Or.inr rfl)⟩

/-- **C7.** `translate_imports` returns the fixed four-line Kivy import
block (App, BoxLayout, Button, Label, joined by newlines) exactly when the
input contains a match of one of `import\s+tkinter\s+as\s+tk`,
`from\s+tkinter\s+import` or `import\s+tkinter`, and the empty string
otherwise; it is a total single-pass function and never raises. -/
theorem C7_translate_imports_characterization (code : String) :
    translate_imports code =
      (if searchWords ["import".toList, "tkinter".toList, "as".toList, "tk".toList]
            code.toList ||
          searchWords ["from".toList, "tkinter".toList, "import".toList] code.toList ||
          searchWords ["import".toList, "tkinter".toList] code.toList
       then kivyImportBlock else "") ∧
    kivyImportBlock =
      "from kivy.app import App\n" ++ "from kivy.uix.boxlayout import BoxLayout\n" ++
      "from kivy.uix.button import Button\n" ++ "from kivy.uix.label import Label" := by
  constructor
  · unfold translate_imports
    by_cases h1 : searchWords ["import".toList, "tkinter".toList, "as".toList, "tk".toList]
        code.toList
    · rw [if_pos h1, if_pos (show _ = true by rw [h1]; simp)]
    · have h1f := Bool.eq_false_iff.mpr h1
      rw [if_neg h1]
      by_cases h2 : searchWords ["from".toList, "tkinter".toList, "import".toList] code.toList
      · rw [if_pos h2, if_pos (show _ = true by rw [h1f, h2]; simp)]
      · have h2f := Bool.eq_false_iff.mpr h2
        rw [if_neg h2]
        by_cases h3 : searchWords ["import".toList, "tkinter".toList] code.toList
        · rw [if_pos h3, if_pos (show _ = true by rw [h1f, h2f, h3]; simp)]
        · have h3f := Bool.eq_false_iff.mpr h3
          rw [if_neg h3, if_neg (show ¬ _ = true by rw [h1f, h2f, h3f]; simp)]
  · rfl

namespace TkinterToKivy

theorem matchLit_some_drop (p l r : List Char) (h : matchLit p l = some r) :
    r = l.drop p.length := by
  induction p generalizing l with
  | nil =>
      simp only [matchLit] at h
      injection h with h
      simp [h.symm]
  | cons pc ps ih =>
      cases l with
      | nil => exact Option.noConfusion h
      | cons c cs =>
          simp only [matchLit] at h
          by_cases hc : pc = c
          · rw [if_pos hc] at h
            simpa using ih cs h
          · rw [if_neg hc] at h
            exact Option.noConfusion h

theorem matchCore_none_of_not_open (l : List Char) (h : buttonOpenAt l = false) :
    matchCore l = none := by
  unfold matchCore
  split
  · rfl
  · rename_i r e
    split
    · rename_i r3 heq
      simp only [buttonOpenAt, e, heq] at h
      exact Bool.noConfusion h
    · rfl

theorem searchButtonOpen_head (c : Char) (rest : List Char)
    (h : searchButtonOpen (c :: rest) = false) :
    buttonOpenAt (c :: rest) = false ∧ searchButtonOpen rest = false := by
  simpa [searchButtonOpen, Bool.or_eq_false_iff] using h

theorem searchButtonOpen_drop (l : List Char) (h : searchButtonOpen l = false) :
    ∀ n, searchButtonOpen (l.drop n) = false := by
  induction l with
  | nil => intro n; simp [searchButtonOpen]
  | cons c rest ih =>
      intro n
      cases n with
      | zero => exact h
      | succ m => exact ih (searchButtonOpen_head c rest h).2 m

theorem buttonOpenAt_false_of_search (l : List Char) (h : searchButtonOpen l = false) :
    buttonOpenAt l = false := by
  cases l with
  | nil => rfl
  | cons c rest => exact (searchButtonOpen_head c rest h).1

theorem searchButton_none_of_no_open (l : List Char) (h : searchButtonOpen l = false) :
    searchButton l = none := by
  induction l with
  | nil => rfl
  | cons c rest ih =>
      obtain ⟨hopen, hrest⟩ := searchButtonOpen_head c rest h
      have hcore : matchCore (c :: rest) = none := matchCore_none_of_not_open _ hopen
      have hall : matchButtonAt (c :: rest) = none := by
        unfold matchButtonAt
        rcases e : matchLit "tk.".toList (c :: rest) with _ | r
        · exact hcore
        · have hr : r = (c :: rest).drop 3 := matchLit_some_drop _ _ _ e
          have hro : buttonOpenAt r = false := by
            rw [hr]
            exact buttonOpenAt_false_of_search _ (searchButtonOpen_drop (c :: rest) h 3)
          show (match matchCore r with
            | some g => some g
            | none => matchCore (c :: rest)) = none
          rw [matchCore_none_of_not_open r hro]
          exact hcore
      unfold searchButton
      rw [hall]
      exact ih hrest

end TkinterToKivy

/-- **C8.** For every input that contains no substring matching the
(optionally `tk.`-prefixed) Button-call opening `Button\s*\(`,
`translate_button` returns exactly `"# Could not parse tkinter Button
call"`: the guard regex cannot match, so the function takes its no-match
branch and has no other effect. -/
theorem C8_translate_button_error (s : String)
    (h : searchButtonOpen s.toList = false) :
    translate_button s = "# Could not parse tkinter Button call" := by
  unfold translate_button
  rw [searchButton_none_of_no_open s.toList h]

/-- Witness for C8 at a concrete input. -/
theorem C8_translate_button_error_witness :
    searchButtonOpen "label = tk.Label(root)".toList = false ∧
    translate_button "label = tk.Label(root)" = "# Could not parse tkinter Button call" :=
  ⟨by decide, C8_translate_button_error "label = tk.Label(root)" (by decide)⟩

/-- **C9.** For a `FakeEntry` whose text is `t`, an integer index
`0 ≤ i ≤ len(t)` and a string `s`: `insert(i, s)` makes `get()` return
`t[:i] + s + t[i:]`; `insert('end', s)` appends, and any other string index
is treated as index 0. -/
theorem C9_entry_insert_semantics (t s : String) (i : Int)
    (h0 : 0 ≤ i) (h1 : i ≤ (t.length : Int)) :
    FakeEntry.get (FakeEntry.insert ⟨t⟩ (PyIndex.int i) s) =
      ⟨t.toList.take i.toNat ++ s.toList ++ t.toList.drop i.toNat⟩ ∧
    FakeEntry.get (FakeEntry.insert ⟨t⟩ (PyIndex.str "end") s) = t ++ s ∧
    (∀ idx : String, idx ≠ "end" →
      FakeEntry.get (FakeEntry.insert ⟨t⟩ (PyIndex.str idx) s) = s ++ t) := by
  refine ⟨?_, ?_, ?_⟩
  · simp [FakeEntry.insert, FakeEntry.get, FakeEntry.set, pySliceTo, pySliceFrom,
      not_lt.mpr h0]
  · show (⟨pySliceTo t.toList (t.length : Int) ++ s.toList ++
        pySliceFrom t.toList (t.length : Int)⟩ : String) = t ++ s
    have hneg : ¬ ((t.length : Int) < 0) := by omega
    simp only [pySliceTo, pySliceFrom, if_neg hneg, Int.toNat_natCast]
    rw [show t.length = t.toList.length from rfl, List.take_length, List.drop_length,
      List.append_nil]
    rfl
  · intro idx hidx
    simp only [FakeEntry.insert, FakeEntry.get, FakeEntry.set, if_neg hidx]
    show (⟨pySliceTo t.toList 0 ++ s.toList ++ pySliceFrom t.toList 0⟩ : String) = s ++ t
    simp [pySliceTo, pySliceFrom]
    rfl

/-- Witness for C9 at `t = "abc"`, `i = 1`, `s = "XY"`. -/
theorem C9_entry_insert_semantics_witness :
    (0 : Int) ≤ 1 ∧
    FakeEntry.get (FakeEntry.insert ⟨"abc"⟩ (PyIndex.int 1) "XY") = "aXYbc" :=
  ⟨by decide,
   (C9_entry_insert_semantics "abc" "XY" 1 (by decide) (by decide)).1⟩

/-- **C10 counterexample.** The claim says `FakeIntVar.set` and the
constructor never raise for any input.  `float('inf')` refutes it:
`int(float('inf'))` raises `OverflowError`, which `except (ValueError,
TypeError)` does not catch, so the call propagates the exception
(symmetrically `FakeDoubleVar.set(10**400)`: `float` of an int beyond the
double range raises `OverflowError`). -/
theorem C10_counterexample_uncaught_overflow :
    FakeIntVar.set ⟨5, []⟩ (PyValue.float PyFloat.inf) =
      Except.error PyErr.overflowError ∧
    FakeIntVar.init (PyValue.float PyFloat.inf) = Except.error PyErr.overflowError ∧
    FakeDoubleVar.set ⟨PyFloat.finite 0, []⟩ (PyValue.int (10 ^ 400)) =
      Except.error PyErr.overflowError := by
  refine ⟨rfl, rfl, ?_⟩
  have h1 : ((10 : Int) ^ 400).natAbs = 10 ^ 400 := by
    simp [Int.natAbs_pow]
  have h2 : (2 : Nat) ^ 1024 ≤ 10 ^ 400 := by
    calc (2 : Nat) ^ 1024 ≤ 2 ^ 1200 := Nat.pow_le_pow_right (by norm_num) (by norm_num)
    _ = (2 ^ 3) ^ 400 := by rw [← pow_mul]
    _ ≤ 10 ^ 400 := Nat.pow_le_pow_left (by norm_num) 400
  have h : ¬ (((10 : Int) ^ 400).natAbs < 2 ^ 1024 - 2 ^ 970) := by
    rw [h1]
    omega
  simp [FakeDoubleVar.set, pyFloat, h]

/-- **C10 (amended).** `FakeIntVar.set` and the constructor catch only
`ValueError` and `TypeError`: for every input whose `int()` conversion does
not raise `OverflowError` they succeed, storing the converted int (or `0`
when the conversion failed with one of the two caught exceptions), so
`get()` always returns an int; inputs such as `float('inf')` raise an
uncaught `OverflowError`.  Symmetrically for `FakeDoubleVar` with
`float()`, defaulting to `0.0`. -/
theorem C10_amended_conversion_totality (v : PyValue) (st : IntVarState)
    (std : DoubleVarState) :
    (pyInt v ≠ .error .overflowError →
      ∃ r, FakeIntVar.set st v = .ok r ∧
        r.1.value = (match pyInt v with | .ok n => n | _ => 0)) ∧
    (pyInt v ≠ .error .overflowError → ∃ r, FakeIntVar.init v = .ok r) ∧
    ((pyInt v = .error .valueError ∨ pyInt v = .error .typeError) →
      ∃ r, FakeIntVar.set st v = .ok r ∧ r.1.value = 0) ∧
    (pyFloat v ≠ .error .overflowError → ∃ r, FakeDoubleVar.set std v = .ok r) ∧
    ((pyFloat v = .error .valueError ∨ pyFloat v = .error .typeError) →
      ∃ r, FakeDoubleVar.set std v = .ok r ∧ r.1.value = .finite 0) := by
  refine ⟨?_, ?_, ?_, ?_, ?_⟩
  · intro h
    cases e : pyInt v with
    | ok n =>
        refine ⟨({ st with value := n }, if st.value ≠ n then st.callbacks else []), ?_, ?_⟩
        · simp [FakeIntVar.set, e]
        · simp [e]
    | error err =>
        cases err with
        | valueError =>
            refine ⟨({ st with value := 0 }, if st.value ≠ 0 then st.callbacks else []),
              ?_, ?_⟩
            · simp [FakeIntVar.set, e]
            · simp [e]
        | typeError =>
            refine ⟨({ st with value := 0 }, if st.value ≠ 0 then st.callbacks else []),
              ?_, ?_⟩
            · simp [FakeIntVar.set, e]
            · simp [e]
        | overflowError => exact absurd e h
  · intro h
    cases e : pyInt v with
    | ok n => exact ⟨⟨n, []⟩, by simp [FakeIntVar.init, e]⟩
    | error err =>
        cases err with
        | valueError => exact ⟨⟨0, []⟩, by simp [FakeIntVar.init, e]⟩
        | typeError => exact ⟨⟨0, []⟩, by simp [FakeIntVar.init, e]⟩
        | overflowError => exact absurd e h
  · intro h
    rcases h with h | h
    · exact ⟨({ st with value := 0 }, if st.value ≠ 0 then st.callbacks else []),
        by simp [FakeIntVar.set, h], rfl⟩
    · exact ⟨({ st with value := 0 }, if st.value ≠ 0 then st.callbacks else []),
        by simp [FakeIntVar.set, h], rfl⟩
  · intro h
    cases e : pyFloat v with
    | ok f =>
        exact ⟨({ std with value := f }, if std.value ≠ f then std.callbacks else []),
          by simp [FakeDoubleVar.set, e]⟩
    | error err =>
        cases err with
        | valueError =>
            exact ⟨({ std with value := .finite 0 },
              if std.value ≠ .finite 0 then std.callbacks else []),
              by simp [FakeDoubleVar.set, e]⟩
        | typeError =>
            exact ⟨({ std with value := .finite 0 },
              if std.value ≠ .finite 0 then std.callbacks else []),
              by simp [FakeDoubleVar.set, e]⟩
        | overflowError => exact absurd e h
  · intro h
    rcases h with h | h
    · exact ⟨({ std with value := .finite 0 },
        if std.value ≠ .finite 0 then std.callbacks else []),
        by simp [FakeDoubleVar.set, h], rfl⟩
    · exact ⟨({ std with value := .finite 0 },
        if std.value ≠ .finite 0 then std.callbacks else []),
        by simp [FakeDoubleVar.set, h], rfl⟩

/-- Witness for C10 (amended) at `v = "abc"` (a `ValueError` input stored
as 0). -/
theorem C10_amended_conversion_totality_witness :
    (pyInt (PyValue.str "abc") = .error .valueError ∨
      pyInt (PyValue.str "abc") = .error .typeError) ∧
    ∃ r, FakeIntVar.set ⟨5, []⟩ (PyValue.str "abc") = .ok r ∧ r.1.value = 0 :=
  ⟨Or.inl rfl,
   (C10_amended_conversion_totality (PyValue.str "abc") ⟨5, []⟩
     ⟨PyFloat.finite 0, []⟩).2.2.1 (Or.inl rfl)⟩
